import Mathlib

/-!
# Verification of the suika editor core (coordinate transforms, geometry helpers, load)

Shallow embedding of `src/packages/core/src/editor.ts` and
`src/packages/suika/src/events.ts`. JavaScript numbers are embedded as
rationals (`ℚ`), so the algebraic identities hold exactly; `Math.round`
is embedded as Mathlib's `round` (both compute `⌊x + 1/2⌋`).
-/

namespace Suika

/-- A 2D point (`IPoint` in the source) with rational coordinates. -/
@[ext]
structure IPoint where
  x : ℚ
  y : ℚ
deriving Repr, DecidableEq

/-! ## Geometry helpers, from `src/packages/suika/src/events.ts` -/

/-- `getMidPoint(p1, p2)`: the componentwise midpoint. -/
def getMidPoint (p1 p2 : IPoint) : IPoint :=
  { x := (p1.x + p2.x) / 2, y := (p1.y + p2.y) / 2 }

/-- `pointAdd(p1, p2)`: componentwise vector addition. -/
def pointAdd (p1 p2 : IPoint) : IPoint :=
  { x := p1.x + p2.x, y := p1.y + p2.y }

/-- `isPointEqual(p1, p2)`: componentwise equality test. -/
def isPointEqual (p1 p2 : IPoint) : Bool :=
  p1.x == p2.x && p1.y == p2.y

/-- The radicand `Math.pow(p1.x - p2.x, 2) + Math.pow(p1.y - p2.y, 2)`
passed to `Math.sqrt` in `distance`. -/
def distanceSq (p1 p2 : IPoint) : ℚ :=
  (p1.x - p2.x) ^ 2 + (p1.y - p2.y) ^ 2

/-- `distance(p1, p2)`: Euclidean distance.  `Math.sqrt` is embedded as the
real square root, so the result lives in `ℝ`. -/
noncomputable def distance (p1 p2 : IPoint) : ℝ :=
  Real.sqrt (distanceSq p1 p2)

/-- `lerp(start, end, t) = start * (1 - t) + end * t`. -/
def lerp (start endV t : ℚ) : ℚ :=
  start * (1 - t) + endV * t

/-- `linearInterpolate(start, end, t)`: `lerp` applied componentwise. -/
def linearInterpolate (start endV : IPoint) (t : ℚ) : IPoint :=
  { x := lerp start.x endV.x t, y := lerp start.y endV.y t }

/-! ## Coordinate conversions

The editor delegates to `sceneCoordsToViewportUtil` / `viewportCoordsToSceneUtil`
from the `@suika/common` package, whose source is not part of the available
tree; they are modelled from the spec (§4.1). -/

/-- The failure taxonomy for the conversion functions (spec §7):
a zoom factor of 0 or negative is rejected. -/
inductive TransformError where
  | InvalidZoom
deriving Repr, DecidableEq

/-- Modelled from the spec: `sceneCoordsToViewportUtil` (package `@suika/common`,
not under the available source).  Spec §4.1: `vx = (sx - scrollX) * zoom`,
`vy = (sy - scrollY) * zoom`; a zoom factor of 0 or negative is rejected
with an `InvalidZoom` failure. -/
def sceneCoordsToViewportUtil (x y zoom scrollX scrollY : ℚ) :
    Except TransformError IPoint :=
  if zoom ≤ 0 then .error .InvalidZoom
  else .ok { x := (x - scrollX) * zoom, y := (y - scrollY) * zoom }

/-- Modelled from the spec: `viewportCoordsToSceneUtil` (package `@suika/common`,
not under the available source).  Spec §4.1: the exact inverse of
`sceneCoordsToViewportUtil`, so `sx = scrollX + vx / zoom`,
`sy = scrollY + vy / zoom`; when `doRound` is set each coordinate is rounded
to the nearest integer scene unit; a zoom factor of 0 or negative is rejected
with an `InvalidZoom` failure. -/
def viewportCoordsToSceneUtil (x y zoom scrollX scrollY : ℚ)
    (doRound : Bool := false) : Except TransformError IPoint :=
  if zoom ≤ 0 then .error .InvalidZoom
  else
    let newX := scrollX + x / zoom
    let newY := scrollY + y / zoom
    if doRound then .ok { x := (round newX : ℤ), y := (round newY : ℤ) }
    else .ok { x := newX, y := newY }

/-! ## Editor state and methods, from `src/packages/core/src/editor.ts` -/

/-- The attributes of a scene-graph element (`GraphAttrs`): position,
size, rotation, and visual attributes (fill/stroke/opacity), the latter
uninterpreted by the core and collected in one field. -/
structure GraphAttrs where
  x : ℚ
  y : ℚ
  width : ℚ
  height : ℚ
  rotation : ℚ
  visual : String
deriving Repr, DecidableEq

/-- The slice of editor state the verified methods read and write:
zoom (from `ZoomManager`), scroll offset (from `ViewportManager`),
the configured canvas offsets (from `Setting`), the scene-graph content,
group data, the two history stacks of the `CommandManager`, and the
document id. -/
structure EditorState where
  zoom : ℚ
  scrollX : ℚ
  scrollY : ℚ
  offsetX : ℚ
  offsetY : ℚ
  sceneGraph : List GraphAttrs
  groups : List String
  undoStack : List String
  redoStack : List String
  paperId : Option String
deriving Repr, DecidableEq

namespace Editor

/-- `Editor.viewportCoordsToScene(x, y, round)`: reads the current zoom and
scroll and delegates to `viewportCoordsToSceneUtil`. -/
def viewportCoordsToScene (st : EditorState) (x y : ℚ)
    (doRound : Bool := false) : Except TransformError IPoint :=
  viewportCoordsToSceneUtil x y st.zoom st.scrollX st.scrollY doRound

/-- `Editor.sceneCoordsToViewport(x, y)`: reads the current zoom and scroll
and delegates to `sceneCoordsToViewportUtil`. -/
def sceneCoordsToViewport (st : EditorState) (x y : ℚ) :
    Except TransformError IPoint :=
  sceneCoordsToViewportUtil x y st.zoom st.scrollX st.scrollY

/-- `Editor.getCursorXY(event)`: the cursor position in viewport space,
obtained by subtracting the configured offsets from the client position. -/
def getCursorXY (st : EditorState) (clientX clientY : ℚ) : IPoint :=
  { x := clientX - st.offsetX, y := clientY - st.offsetY }

/-- `Editor.getSceneCursorXY(event, round)`: `getCursorXY` followed by
`viewportCoordsToScene`. -/
def getSceneCursorXY (st : EditorState) (clientX clientY : ℚ)
    (doRound : Bool := false) : Except TransformError IPoint :=
  let c := getCursorXY st clientX clientY
  viewportCoordsToScene st c.x c.y doRound

/-- `Editor.moveElements(elements, dx, dy)`: adds `dx` to `x` and `dy` to `y`
of every element of the list. -/
def moveElements (elements : List GraphAttrs) (dx dy : ℚ) : List GraphAttrs :=
  elements.map fun element =>
    { element with x := element.x + dx, y := element.y + dy }

end Editor

/-- The document snapshot `IEditorPaperData`: optional group data, the
scene-graph data, and the document id (possibly absent, in which case a
fresh id is generated). -/
structure IEditorPaperData where
  groups : Option (List String)
  data : List GraphAttrs
  paperId : Option String
deriving Repr, DecidableEq

/-- Modelled from the spec: `CommandManager.clearRecords` (file
`commands/command_manager.ts`, not under the available source).
Spec §4.5: empties both history stacks. -/
def CommandManager.clearRecords (st : EditorState) : EditorState :=
  { st with undoStack := [], redoStack := [] }

/-- Modelled from the spec: `SceneGraph.load` (file `scene/scene_graph.ts`,
not under the available source).  Spec §6: `load(snapshot)` fully replaces
the Scene Graph with the snapshot data. -/
def SceneGraph.load (st : EditorState) (data : List GraphAttrs) : EditorState :=
  { st with sceneGraph := data }

/-- Modelled from the spec: `GroupManager.load` (file `group_manager.ts`,
not under the available source): replaces the group data. -/
def GroupManager.load (st : EditorState) (gs : List String) : EditorState :=
  { st with groups := gs }

/-- `Editor.loadData(data)`: loads group data when present, loads the scene
graph, clears the history records, and sets the document id (falling back to
a freshly generated id — `genId()` is external and nondeterministic, so the
fresh id is passed as the parameter `fresh`). -/
def Editor.loadData (fresh : String) (st : EditorState)
    (data : IEditorPaperData) : EditorState :=
  let st1 := match data.groups with
    | some gs => GroupManager.load st gs
    | none => st
  let st2 := SceneGraph.load st1 data.data
  let st3 := CommandManager.clearRecords st2
  { st3 with paperId := some (data.paperId.getD fresh) }

/-! ## Theorems -/

/-- C1: for every point p, zoom z > 0 and scroll offset (sx, sy), converting
p from scene space to viewport space and back (without rounding) yields p. -/
theorem viewport_scene_roundtrip (p : IPoint) (z sx sy : ℚ) (hz : 0 < z) :
    (sceneCoordsToViewportUtil p.x p.y z sx sy).bind
      (fun q => viewportCoordsToSceneUtil q.x q.y z sx sy false) = .ok p := by
  have hz0 : z ≠ 0 := ne_of_gt hz
  have hx : sx + (p.x - sx) * z / z = p.x := by field_simp
  have hy : sy + (p.y - sy) * z / z = p.y := by field_simp
  simp [sceneCoordsToViewportUtil, viewportCoordsToSceneUtil, Except.bind,
    not_le.mpr hz, hx, hy]

/-- Witness for C1 at p = (3, 4), z = 2, scroll = (10, 20). -/
theorem viewport_scene_roundtrip_witness :
    (0 : ℚ) < 2 ∧
      (sceneCoordsToViewportUtil (3 : ℚ) 4 2 10 20).bind
        (fun q => viewportCoordsToSceneUtil q.x q.y 2 10 20 false) =
        .ok { x := 3, y := 4 } :=
  ⟨by norm_num, viewport_scene_roundtrip { x := 3, y := 4 } 2 10 20 (by norm_num)⟩

/-- C2 (counterexample): at zoom 0 the conversion does not return the point
given by the formula; it fails with InvalidZoom, so the claim does not hold
for every zoom factor. -/
theorem sceneCoordsToViewport_zero_zoom_cex :
    sceneCoordsToViewportUtil 0 0 0 0 0 = .error .InvalidZoom ∧
      sceneCoordsToViewportUtil 0 0 0 0 0 ≠
        .ok { x := (0 - 0) * 0, y := (0 - 0) * 0 } := by
  have h : sceneCoordsToViewportUtil 0 0 0 0 0 = .error .InvalidZoom := by
    norm_num [sceneCoordsToViewportUtil]
  refine ⟨h, ?_⟩
  rw [h]
  intro hc
  exact Except.noConfusion hc

/-- C2 (amended): for every zoom factor z > 0 and every scene point and
scroll offset, the conversion returns ((sx - scrollX) * z, (sy - scrollY) * z). -/
theorem sceneCoordsToViewportUtil_formula (sx sy z scrollX scrollY : ℚ)
    (hz : 0 < z) :
    sceneCoordsToViewportUtil sx sy z scrollX scrollY =
      .ok { x := (sx - scrollX) * z, y := (sy - scrollY) * z } := by
  simp [sceneCoordsToViewportUtil, not_le.mpr hz]

/-- Witness for the amended C2 at (1, 2), zoom 3, scroll (4, 5). -/
theorem sceneCoordsToViewportUtil_formula_witness :
    (0 : ℚ) < 3 ∧
      sceneCoordsToViewportUtil 1 2 3 4 5 =
        .ok { x := (1 - 4) * 3, y := (2 - 5) * 3 } :=
  ⟨by norm_num, sceneCoordsToViewportUtil_formula 1 2 3 4 5 (by norm_num)⟩

/-- C3 (counterexample): with zoom 2 and scroll (10, 10), the viewport point
(30, 30) does not map to the scene point (5, 5). -/
theorem viewportToScene_scenarioC_cex :
    viewportCoordsToSceneUtil 30 30 2 10 10 false ≠ .ok { x := 5, y := 5 } := by
  norm_num [viewportCoordsToSceneUtil]

/-- C3 (amended): with zoom 2 and scroll (10, 10), the viewport point
(30, 30) maps to the scene point (25, 25), computed as
(30 / 2 + 10, 30 / 2 + 10) — the inverse of the forward mapping divides by
the zoom and then adds the scroll, not the other way round. -/
theorem viewportToScene_scenarioC :
    viewportCoordsToSceneUtil 30 30 2 10 10 false = .ok { x := 25, y := 25 } ∧
      (25 : ℚ) = 30 / 2 + 10 := by
  norm_num [viewportCoordsToSceneUtil]

/-- C4: both conversions reject a zoom factor of 0 or negative with an
InvalidZoom failure, for every input point, scroll offset and round flag. -/
theorem conversion_rejects_invalid_zoom (x y z scrollX scrollY : ℚ)
    (r : Bool) (hz : z ≤ 0) :
    viewportCoordsToSceneUtil x y z scrollX scrollY r = .error .InvalidZoom ∧
      sceneCoordsToViewportUtil x y z scrollX scrollY = .error .InvalidZoom := by
  constructor <;>
    simp [viewportCoordsToSceneUtil, sceneCoordsToViewportUtil, hz]

/-- Witness for C4 at zoom 0. -/
theorem conversion_rejects_invalid_zoom_witness :
    (0 : ℚ) ≤ 0 ∧
      (viewportCoordsToSceneUtil 1 2 0 3 4 true = .error .InvalidZoom ∧
        sceneCoordsToViewportUtil 1 2 0 3 4 = .error .InvalidZoom) :=
  ⟨le_refl 0, conversion_rejects_invalid_zoom 1 2 0 3 4 true (le_refl 0)⟩

/-- C5: for every viewport point, zoom > 0 and scroll offset, the
viewport-to-scene conversion without the round flag returns the exact inverse
mapping unchanged, and with the round flag it rounds each coordinate to the
nearest integer scene unit. -/
theorem viewportCoordsToSceneUtil_round_spec (x y z scrollX scrollY : ℚ)
    (hz : 0 < z) :
    viewportCoordsToSceneUtil x y z scrollX scrollY false =
      .ok { x := scrollX + x / z, y := scrollY + y / z } ∧
    viewportCoordsToSceneUtil x y z scrollX scrollY true =
      .ok { x := (round (scrollX + x / z) : ℤ),
            y := (round (scrollY + y / z) : ℤ) } := by
  constructor <;> simp [viewportCoordsToSceneUtil, not_le.mpr hz]

/-- Witness for C5 at (30, 31), zoom 2, scroll (10, 10): the exact result is
(25, 51/2) and the rounded result is (25, 26). -/
theorem viewportCoordsToSceneUtil_round_spec_witness :
    (0 : ℚ) < 2 ∧
      (viewportCoordsToSceneUtil 30 31 2 10 10 false =
        .ok { x := 10 + 30 / 2, y := 10 + 31 / 2 } ∧
      viewportCoordsToSceneUtil 30 31 2 10 10 true =
        .ok { x := (round ((10 : ℚ) + 30 / 2) : ℤ),
              y := (round ((10 : ℚ) + 31 / 2) : ℤ) }) :=
  ⟨by norm_num, viewportCoordsToSceneUtil_round_spec 30 31 2 10 10 (by norm_num)⟩

/-- C6: loading a snapshot replaces the scene-graph content with the
snapshot data and leaves both history stacks empty, for every snapshot and
every prior state. -/
theorem loadData_spec (fresh : String) (st : EditorState)
    (data : IEditorPaperData) :
    (Editor.loadData fresh st data).sceneGraph = data.data ∧
    (Editor.loadData fresh st data).undoStack = [] ∧
    (Editor.loadData fresh st data).redoStack = [] := by
  cases h : data.groups <;>
    simp [Editor.loadData, SceneGraph.load, GroupManager.load,
      CommandManager.clearRecords, h]

/-- C7: lerp(a, b, t) = a * (1 - t) + b * t for all a, b, t, and
linearInterpolate applies lerp to the x and y coordinates componentwise. -/
theorem lerp_linearInterpolate_spec (a b t : ℚ) (p q : IPoint) :
    lerp a b t = a * (1 - t) + b * t ∧
      linearInterpolate p q t =
        { x := lerp p.x q.x t, y := lerp p.y q.y t } :=
  ⟨rfl, rfl⟩

/-- C8: the geometry helpers are total: on every pair of points (and every t)
each returns the value of its closed-form formula, point equality decides
true exactly on equal points, and the Euclidean distance is a well-defined
nonnegative real whose square is the sum of squared coordinate differences
(the radicand is never negative, so the square root never fails). -/
theorem geometry_helpers_total (p1 p2 : IPoint) (t : ℚ) :
    getMidPoint p1 p2 = { x := (p1.x + p2.x) / 2, y := (p1.y + p2.y) / 2 } ∧
    pointAdd p1 p2 = { x := p1.x + p2.x, y := p1.y + p2.y } ∧
    lerp p1.x p2.x t = p1.x * (1 - t) + p2.x * t ∧
    linearInterpolate p1 p2 t =
      { x := lerp p1.x p2.x t, y := lerp p1.y p2.y t } ∧
    (isPointEqual p1 p2 = true ↔ p1 = p2) ∧
    0 ≤ distance p1 p2 ∧
    distance p1 p2 ^ 2 = ((distanceSq p1 p2 : ℚ) : ℝ) := by
  refine ⟨rfl, rfl, rfl, rfl, ?_, Real.sqrt_nonneg _, ?_⟩
  · simp [isPointEqual, IPoint.ext_iff]
  · have h0 : (0 : ℝ) ≤ ((distanceSq p1 p2 : ℚ) : ℝ) := by
      have h1 : (0 : ℚ) ≤ distanceSq p1 p2 := by unfold distanceSq; positivity
      exact_mod_cast h1
    rw [distance, Real.sq_sqrt h0]

/-- C9: moveElements adds dx to x and dy to y of every element of the list,
leaves width, height, rotation and the visual attributes of every element
unchanged, and maps the empty list to the empty list. -/
theorem moveElements_spec (elements : List GraphAttrs) (dx dy : ℚ) :
    List.Forall₂
      (fun e f => f.x = e.x + dx ∧ f.y = e.y + dy ∧ f.width = e.width ∧
        f.height = e.height ∧ f.rotation = e.rotation ∧ f.visual = e.visual)
      elements (Editor.moveElements elements dx dy) ∧
    Editor.moveElements [] dx dy = [] := by
  refine ⟨?_, rfl⟩
  induction elements with
  | nil => exact List.Forall₂.nil
  | cons e es ih => exact List.Forall₂.cons ⟨rfl, rfl, rfl, rfl, rfl, rfl⟩ ih

/-- C10: getSceneCursorXY equals viewportCoordsToScene applied to the client
position minus the configured offsets, at the current zoom and scroll, for
every editor state, client position and round flag. -/
theorem getSceneCursorXY_spec (st : EditorState) (clientX clientY : ℚ)
    (r : Bool) :
    Editor.getSceneCursorXY st clientX clientY r =
      Editor.viewportCoordsToScene st (clientX - st.offsetX)
        (clientY - st.offsetY) r :=
  rfl

end Suika
